import Mathlib

/-!
Verification of the deployment log diagnostic summarizer implemented in
`tools/fetch_vercel_logs.py`.

The Python code is shallowly embedded as executable Lean definitions:

* `Deployment` and `LogInsights` mirror the two dataclasses.
* Events are JSON-like dictionaries (`Event` is an association list of
  string keys to `JVal` values), since the script consumes decoded JSON.
* Python string methods `str.lower`, `str.upper`, `str.strip`, the
  substring test `needle in hay`, and `sep.join(xs)` are embedded as
  `lowerStr`, `upperStr`, `trimStr`, `strContainsSub`, and `pyJoin`.
  The embeddings fold case and strip whitespace over the ASCII range that
  the fixed phrase sets use; exotic Unicode case folding is out of scope.
* `time.strftime("%Y-%m-%d %H:%M:%S", time.localtime(t))` is embedded as
  `strftimeLocal tzOffset t`: the ambient local timezone consulted by
  `localtime` is made an explicit parameter `tzOffset` (seconds east of
  UTC, fixed offset), and the Gregorian calendar conversion is computed
  exactly for years 1 to 9999.
* Timestamps (`created` milliseconds divided by 1000.0) are modelled as
  exact rationals; ordering of finite floats agrees with the rational
  order.
* `main` (minus credential loading) is embedded as `runMain`, taking the
  results of the two network fetches as explicit arguments, which is the
  component boundary the specification draws.
-/

/-- JSON-like values as decoded by `json.loads`. -/
inductive JVal where
  | str (s : String)
  | num (n : Int)
  | boolean (b : Bool)
  | null
  | arr (elems : List JVal)
  | obj (fields : List (String × JVal))

/-- A decoded JSON object: what the script calls an event dict. -/
abbrev Event := List (String × JVal)

/-- Mirrors the `Deployment` dataclass (fetch_vercel_logs.py lines 47-54). -/
structure Deployment where
  uid : String
  state : String
  created_at : Rat
  framework : Option String
deriving DecidableEq, Repr

/-- Mirrors the `LogInsights` dataclass (fetch_vercel_logs.py lines 57-66). -/
structure LogInsights where
  root_cause : String
  missing_envs : List String
  missing_dependencies : List String
  framework : Option String
  build_status : String
  recommendations : List String
deriving DecidableEq, Repr

/-- Is `needle` a leading segment of `hay`? Used to embed Python's `in`. -/
def isPre : List Char → List Char → Bool
  | [], _ => true
  | _ :: _, [] => false
  | a :: as, b :: bs => a == b && isPre as bs

/-- Does `hay` contain `needle` as a contiguous run? -/
def listHasSub (hay needle : List Char) : Bool :=
  match hay with
  | [] => needle.isEmpty
  | _ :: t => isPre needle hay || listHasSub t needle

/-- Embeds Python's substring test `needle in hay`. -/
def strContainsSub (hay needle : String) : Bool :=
  listHasSub hay.data needle.data

/-- Embeds `str.lower` (ASCII case folding). -/
def lowerStr (s : String) : String := String.mk (s.data.map Char.toLower)

/-- Embeds `str.upper` (ASCII case folding). -/
def upperStr (s : String) : String := String.mk (s.data.map Char.toUpper)

/-- Leading and trailing whitespace removed, on character lists. -/
def trimChars (cs : List Char) : List Char :=
  ((cs.dropWhile Char.isWhitespace).reverse.dropWhile Char.isWhitespace).reverse

/-- Embeds `str.strip()`. -/
def trimStr (s : String) : String := String.mk (trimChars s.data)

/-- Embeds Python's `sep.join(xs)`. -/
def pyJoin (sep : String) : List String → String
  | [] => ""
  | [a] => a
  | a :: b :: t => a ++ sep ++ pyJoin sep (b :: t)

/-- The nested `payload.text` lookup of `extract_text_from_event`
(fetch_vercel_logs.py lines 140-144): a string only when `payload` is a
dict whose `text` entry is a string. -/
def payloadTextOf (event : Event) : Option String :=
  match event.lookup "payload" with
  | some (JVal.obj fields) =>
    match fields.lookup "text" with
    | some (JVal.str t) => some t
    | _ => none
  | _ => none

/-- The top-level `message` lookup of `extract_text_from_event`
(fetch_vercel_logs.py lines 145-146). -/
def messageOf (event : Event) : Option String :=
  match event.lookup "message" with
  | some (JVal.str m) => some m
  | _ => none

/-- Embeds `extract_text_from_event` (fetch_vercel_logs.py lines 139-147). -/
def extract_text_from_event (event : Event) : String :=
  match payloadTextOf event with
  | some t => t
  | none =>
    match messageOf event with
    | some m => m
    | none => ""

/-- The inner loop of `detect_patterns`: does any pattern occur in the
lowered line?  First match wins and stops the scan (the `break`). -/
def lineHit (low : String) : List String → Bool
  | [] => false
  | p :: ps => if strContainsSub low p then true else lineHit low ps

/-- Embeds `detect_patterns` (fetch_vercel_logs.py lines 166-174): collect
`line.strip()` for each line whose lowered form contains some pattern. -/
def detect_patterns : List String → List String → List String
  | [], _ => []
  | line :: rest, patterns =>
    if lineHit (lowerStr line) patterns then
      trimStr line :: detect_patterns rest patterns
    else
      detect_patterns rest patterns

/-- Python truthiness of an `Optional[str]`: `None` and `""` are falsy. -/
def truthyOpt : Option String → Bool
  | none => false
  | some s => !(s == "")

/-- The event loop of `find_framework` (fetch_vercel_logs.py lines 153-163):
per event, the four markers are tried in their fixed order. -/
def scanFrameworkEvents : List Event → Option String
  | [] => none
  | e :: rest =>
    let text := lowerStr (extract_text_from_event e)
    if strContainsSub text "next.js" then some "next.js"
    else if strContainsSub text "astro" then some "astro"
    else if strContainsSub text "remix" then some "remix"
    else if strContainsSub text "sveltekit" then some "sveltekit"
    else scanFrameworkEvents rest

/-- Embeds `find_framework` (fetch_vercel_logs.py lines 150-163). -/
def find_framework (deployment : Deployment) (events : List Event) : Option String :=
  if truthyOpt deployment.framework then deployment.framework
  else scanFrameworkEvents events

/-- The fixed ordered framework markers, as the specification lists them. -/
def frameworkMarkers : List String := ["next.js", "astro", "remix", "sveltekit"]

/-- Modelled from the specification wording of 4.4 (framework resolver):
prefer a non-empty declared framework; otherwise return the first marker
found scanning the lowered event text lines against the fixed ordered
marker list; otherwise no framework. -/
def markerOfLine (text : String) : Option String :=
  frameworkMarkers.findSome? fun m => if strContainsSub text m then some m else none

/-- Modelled from the specification wording of 4.4, line-scan form. -/
def resolveFrameworkSpec (d : Deployment) (events : List Event) : Option String :=
  if truthyOpt d.framework then d.framework
  else (events.map fun e => lowerStr (extract_text_from_event e)).findSome? markerOfLine

/-- The error phrase set of `derive_insights` (fetch_vercel_logs.py line 180). -/
def errorPhrases : List String := ["error", "fail", "cannot", "missing", "module not found"]

/-- The missing-environment phrase set (fetch_vercel_logs.py lines 183-186). -/
def envPhrases : List String :=
  ["environment variable", "env var", "not set", "undefined", "missing key"]

/-- The missing-dependency phrase set (fetch_vercel_logs.py lines 187-196). -/
def depPhrases : List String :=
  ["module not found", "cannot find module", "npm err! missing script",
   "package not found", "dependency is missing"]

/-- The baseline recommendations (fetch_vercel_logs.py lines 200-204). -/
def baselineRecommendations : List String :=
  ["Verify the build command in Vercel project settings.",
   "Confirm all required environment variables are configured in the Vercel dashboard.",
   "Reproduce the build locally with `npm run build` to validate the fix before redeploying."]

/-- The env-var remediation inserted at index 1 (fetch_vercel_logs.py line 206). -/
def envRecommendation : String := "Set the missing environment variables noted in the logs."

/-- The dependency remediation inserted at index 1 (fetch_vercel_logs.py line 208). -/
def depRecommendation : String :=
  "Install or declare the dependencies that are reported as missing."

/-- Embeds `list.insert(1, x)` on a list known to the script to be non-empty. -/
def insertAt1 (x : String) : List String → List String
  | [] => [x]
  | a :: rest => a :: x :: rest

/-- The line extraction of `derive_insights` (fetch_vercel_logs.py line 178):
texts of all events, keeping only truthy (non-empty) strings. -/
def extractLines (events : List Event) : List String :=
  (events.map extract_text_from_event).filter fun s => !(s == "")

/-- The placeholder root cause (fetch_vercel_logs.py line 181). -/
def noErrorPlaceholder : String := "No explicit error message found in logs."

/-- Embeds `derive_insights` (fetch_vercel_logs.py lines 177-217). -/
def derive_insights (deployment : Deployment) (events : List Event) : LogInsights :=
  let lines := extractLines events
  { root_cause := ((detect_patterns lines errorPhrases).getLast?).getD noErrorPlaceholder
    missing_envs := detect_patterns lines envPhrases
    missing_dependencies := detect_patterns lines depPhrases
    framework := find_framework deployment events
    build_status := deployment.state
    recommendations :=
      let recs := baselineRecommendations
      let recs := if (detect_patterns lines envPhrases).isEmpty then recs
                  else insertAt1 envRecommendation recs
      if (detect_patterns lines depPhrases).isEmpty then recs
      else insertAt1 depRecommendation recs }

/-- Digit character for a value below ten. -/
def digitChar (n : Nat) : Char := Char.ofNat (48 + n)

/-- Two-digit zero-padded decimal, as `%m`, `%d`, `%H`, `%M`, `%S` render. -/
def twoDigits (n : Nat) : String := String.mk [digitChar (n / 10 % 10), digitChar (n % 10)]

/-- Four-digit zero-padded decimal, as `%Y` renders years 1 to 9999. -/
def fourDigits (n : Nat) : String :=
  String.mk [digitChar (n / 1000 % 10), digitChar (n / 100 % 10),
             digitChar (n / 10 % 10), digitChar (n % 10)]

/-- Proleptic Gregorian civil date from days since 1970-01-01. -/
def civilFromDays (z : Int) : Int × Int × Int :=
  let days := z + 719468
  let era := Int.ediv days 146097
  let doe := (days - era * 146097).toNat
  let yoe := (doe - doe / 1460 + doe / 36524 - doe / 146096) / 365
  let y := (yoe : Int) + era * 400
  let doy := doe - (365 * yoe + yoe / 4 - yoe / 100)
  let mp := (5 * doy + 2) / 153
  let dom := doy - (153 * mp + 2) / 5 + 1
  let m : Int := (mp : Int) + (if mp < 10 then 3 else -9)
  (y + (if m ≤ 2 then 1 else 0), m, (dom : Int))

/-- Embeds `time.strftime("%Y-%m-%d %H:%M:%S", time.localtime(t))`
(fetch_vercel_logs.py line 234).  `tzOffset` is the ambient local
timezone that `localtime` consults, as a fixed offset in seconds east of
UTC; fractional seconds of the timestamp are dropped. -/
def strftimeLocal (tzOffset : Int) (t : Rat) : String :=
  let secs : Int := Rat.floor t + tzOffset
  let days := Int.ediv secs 86400
  let sod := (Int.emod secs 86400).toNat
  let c := civilFromDays days
  fourDigits c.1.toNat ++ "-" ++ twoDigits c.2.1.toNat ++ "-" ++ twoDigits c.2.2.toNat ++
    " " ++ twoDigits (sod / 3600) ++ ":" ++ twoDigits (sod / 60 % 60) ++ ":" ++
    twoDigits (sod % 60)

/-- Embeds `insights.framework or "Unknown"` (fetch_vercel_logs.py line 221). -/
def showFramework : Option String → String
  | none => "Unknown"
  | some s => if s == "" then "Unknown" else s

/-- The status line of `format_summary` (fetch_vercel_logs.py line 222). -/
def status_line (insights : LogInsights) : String :=
  "üîç BUILD STATUS | " ++ upperStr insights.build_status ++
    " | Framework: " ++ showFramework insights.framework

/-- The root cause line of `format_summary` (fetch_vercel_logs.py line 223). -/
def root_cause_line (insights : LogInsights) : String :=
  "üß† ROOT CAUSE | " ++ insights.root_cause

/-- The optional bulleted blocks of `format_summary`
(fetch_vercel_logs.py lines 225-229). -/
def extra_sections (insights : LogInsights) : List String :=
  (if insights.missing_envs.isEmpty then []
   else ["Missing ENV Vars:\n  - " ++ pyJoin "\n  - " insights.missing_envs]) ++
  (if insights.missing_dependencies.isEmpty then []
   else ["Missing Dependencies:\n  - " ++ pyJoin "\n  - " insights.missing_dependencies])

/-- The always-present fix block of `format_summary`
(fetch_vercel_logs.py lines 231-232). -/
def fix_section (insights : LogInsights) : String :=
  "üõ† FIX RECOMMENDATION |\n  - " ++
    pyJoin "\n  - " insights.recommendations

/-- The header of `format_summary` (fetch_vercel_logs.py lines 234-235). -/
def header_line (tzOffset : Int) (deployment : Deployment) : String :=
  "üîó Latest deployment: " ++ deployment.uid ++
    " | Created: " ++ strftimeLocal tzOffset deployment.created_at

/-- Embeds `format_summary` (fetch_vercel_logs.py lines 220-240). -/
def format_summary (tzOffset : Int) (insights : LogInsights) (deployment : Deployment) :
    String :=
  pyJoin "\n\n"
    ([header_line tzOffset deployment, status_line insights, root_cause_line insights] ++
      extra_sections insights ++ [fix_section insights])

/-- Embeds the sort of `list_deployments` (fetch_vercel_logs.py line 123):
Python's stable sort, descending by `created_at`, is the stable insertion
sort for the relation `b.created_at ≤ a.created_at`. -/
def sortDeployments (ds : List Deployment) : List Deployment :=
  List.insertionSort (fun a b => b.created_at ≤ a.created_at) ds

/-- The deployment `main` analyzes: head of the descending sort
(fetch_vercel_logs.py line 258). -/
def selectLatest (ds : List Deployment) : Option Deployment :=
  (sortDeployments ds).head?

/-- The three failure shapes `VercelAPIError` wraps
(fetch_vercel_logs.py lines 89-97). -/
inductive APIFailure where
  | httpFailure (code : Nat) (reason : String)
  | urlFailure (reason : String)
  | invalidJson
deriving DecidableEq

/-- The message carried by each `VercelAPIError`
(fetch_vercel_logs.py lines 90, 92, 97). -/
def renderAPIFailure : APIFailure → String
  | APIFailure.httpFailure code reason =>
    "HTTP error " ++ toString code ++ " from Vercel API: " ++ reason
  | APIFailure.urlFailure reason => "Failed to reach Vercel API: " ++ reason
  | APIFailure.invalidJson => "Invalid JSON payload from Vercel API"

/-- The message printed for an empty deployment list
(fetch_vercel_logs.py line 255). -/
def noDeploymentsMessage : String :=
  "‚ùå No deployments found for the specified project."

/-- Observable outcome of one run of `main`'s post-fetch logic. -/
structure RunOutcome where
  exitCode : Nat
  errorMessage : Option String
  analyzed : Option Deployment
  report : Option String
deriving DecidableEq

/-- Embeds `main` (fetch_vercel_logs.py lines 243-271) past credential
loading: the two fetches are inputs, mirroring the component boundary. -/
def runMain (tzOffset : Int) (depsResult : Except APIFailure (List Deployment))
    (eventsOf : String → Except APIFailure (List Event)) : RunOutcome :=
  match depsResult with
  | Except.error e =>
    { exitCode := 1, errorMessage := some ("‚ùå " ++ renderAPIFailure e),
      analyzed := none, report := none }
  | Except.ok deployments =>
    if deployments.isEmpty then
      { exitCode := 1, errorMessage := some noDeploymentsMessage,
        analyzed := none, report := none }
    else
      match (sortDeployments deployments).head? with
      | none =>
        { exitCode := 1, errorMessage := some noDeploymentsMessage,
          analyzed := none, report := none }
      | some latest =>
        match eventsOf latest.uid with
        | Except.error e =>
          { exitCode := 1,
            errorMessage := some ("‚ùå " ++ renderAPIFailure e),
            analyzed := some latest, report := none }
        | Except.ok events =>
          let insights := derive_insights latest events
          { exitCode := 0, errorMessage := none, analyzed := some latest,
            report := some (format_summary tzOffset insights latest) }

example : strContainsSub (lowerStr "Error: Module not found: 'foo'") "module not found" = true := by decide

example : detect_patterns ["Error: Module not found: x", "Build completed"] depPhrases
    = ["Error: Module not found: x"] := by decide

example : strftimeLocal 0 0 = "1970-01-01 00:00:00" := by decide

lemma lineHit_eq_any (low : String) (ps : List String) :
    lineHit low ps = ps.any fun p => strContainsSub low p := by
  induction ps with
  | nil => rfl
  | cons p ps ih =>
    simp only [lineHit, List.any_cons]
    cases h : strContainsSub low p <;> simp [h, ih]

lemma detect_patterns_eq (lines ps : List String) :
    detect_patterns lines ps
      = (lines.filter fun l => ps.any fun p => strContainsSub (lowerStr l) p).map trimStr := by
  induction lines with
  | nil => rfl
  | cons line rest ih =>
    simp only [detect_patterns, lineHit_eq_any, List.filter_cons]
    cases h : (ps.any fun p => strContainsSub (lowerStr line) p) <;> simp [h, ih]

lemma isPre_append_self (l t : List Char) : isPre l (l ++ t) = true := by
  induction l with
  | nil => rfl
  | cons a as ih => simp [isPre, ih]

lemma listHasSub_append_left (x r n : List Char) (h : listHasSub r n = true) :
    listHasSub (x ++ r) n = true := by
  induction x with
  | nil => simpa using h
  | cons c cs ih => simp [listHasSub, ih]

lemma listHasSub_self_append (n t : List Char) : listHasSub (n ++ t) n = true := by
  cases n with
  | nil =>
    cases t with
    | nil => rfl
    | cons c cs => simp [listHasSub, isPre]
  | cons a as =>
    have h := isPre_append_self (a :: as) t
    simp only [List.cons_append] at h
    simp [listHasSub, h]

lemma string_ext (s t : String) (h : s.data = t.data) : s = t := by
  cases s; cases t; exact congrArg String.mk h

lemma append_ne_of_right_ne (p a b : String) (h : a ≠ b) : p ++ a ≠ p ++ b := by
  intro he
  apply h
  apply string_ext
  have hd := congrArg String.data he
  rw [String.data_append, String.data_append] at hd
  exact List.append_cancel_left hd

lemma ne_of_head (s t : String) (c d : Char) (hs : s.data.head? = some c)
    (ht : t.data.head? = some d) (hcd : c ≠ d) : s ≠ t := by
  intro h
  rw [h, ht] at hs
  exact hcd (Option.some.inj hs).symm

lemma head_of_append_left (p x : String) (c : Char) (h : p.data.head? = some c) :
    (p ++ x).data.head? = some c := by
  rw [String.data_append]
  cases hp : p.data with
  | nil => rw [hp] at h; cases h
  | cons a t =>
    rw [hp] at h
    simp only [List.head?_cons, Option.some.injEq] at h
    subst h
    rfl

lemma strContains_middle (p u s : String) : strContainsSub (p ++ u ++ s) u = true := by
  unfold strContainsSub
  rw [String.data_append, String.data_append, List.append_assoc]
  exact listHasSub_append_left _ _ _ (listHasSub_self_append _ _)

lemma renderAPIFailure_ne_noDeps (e : APIFailure) :
    renderAPIFailure e ≠ "No deployments found for the specified project." := by
  cases e with
  | httpFailure code reason =>
    refine ne_of_head _ _ 'H' 'N' ?_ rfl (by decide)
    exact head_of_append_left _ _ _ (head_of_append_left _ _ _ (head_of_append_left _ _ _ rfl))
  | urlFailure reason =>
    refine ne_of_head _ _ 'F' 'N' ?_ rfl (by decide)
    exact head_of_append_left _ _ _ rfl
  | invalidJson => decide

lemma apiMessage_ne_noDeploymentsMessage (e : APIFailure) :
    "‚ùå " ++ renderAPIFailure e ≠ noDeploymentsMessage := by
  have h : noDeploymentsMessage
      = "‚ùå " ++ "No deployments found for the specified project." := by decide
  rw [h]
  exact append_ne_of_right_ne _ _ _ (renderAPIFailure_ne_noDeps e)

lemma extractLines_eq_nil (events : List Event)
    (h : ∀ e ∈ events, extract_text_from_event e = "") : extractLines events = [] := by
  induction events with
  | nil => rfl
  | cons e rest ih =>
    have he := h e (List.mem_cons_self e rest)
    have ih2 := ih fun x hx => h x (List.mem_cons_of_mem e hx)
    simp only [extractLines, List.map_cons, List.filter_cons, he] at ih2 ⊢
    simpa using ih2

lemma scan_eq (events : List Event) :
    scanFrameworkEvents events
      = (events.map fun e => lowerStr (extract_text_from_event e)).findSome? markerOfLine := by
  induction events with
  | nil => rfl
  | cons e rest ih =>
    simp only [scanFrameworkEvents, List.map_cons, List.findSome?_cons, markerOfLine,
      frameworkMarkers]
    cases h1 : strContainsSub (lowerStr (extract_text_from_event e)) "next.js" <;>
      cases h2 : strContainsSub (lowerStr (extract_text_from_event e)) "astro" <;>
        cases h3 : strContainsSub (lowerStr (extract_text_from_event e)) "remix" <;>
          cases h4 : strContainsSub (lowerStr (extract_text_from_event e)) "sveltekit" <;>
            simp [List.findSome?_cons, h1, h2, h3, h4, ih, markerOfLine, frameworkMarkers]

lemma derive_recommendations_shape (d : Deployment) (events : List Event) :
    (derive_insights d events).recommendations =
      "Verify the build command in Vercel project settings." ::
        ((if (derive_insights d events).missing_dependencies.isEmpty then []
          else [depRecommendation]) ++
         (if (derive_insights d events).missing_envs.isEmpty then []
          else [envRecommendation]) ++
         ["Confirm all required environment variables are configured in the Vercel dashboard.",
          "Reproduce the build locally with `npm run build` to validate the fix before redeploying."]) := by
  cases hE : (detect_patterns (extractLines events) envPhrases).isEmpty <;>
    cases hD : (detect_patterns (extractLines events) depPhrases).isEmpty <;>
      simp [derive_insights, hE, hD, insertAt1, baselineRecommendations]

/-- Claim C1 (amended): for every deployment and event sequence,
`root_cause` is the whitespace-trimmed form of the last extracted event
text line whose lower-cased form contains a phrase of the error phrase
set; when no line matches it is the fixed placeholder, which is not
empty.  (The original claim said the matching line is returned exactly;
the code returns `line.strip()`.) -/
theorem claim1_root_cause (d : Deployment) (events : List Event) :
    (derive_insights d events).root_cause
      = ((((extractLines events).filter fun l =>
            errorPhrases.any fun p => strContainsSub (lowerStr l) p).map trimStr).getLast?).getD
          "No explicit error message found in logs."
      ∧ noErrorPlaceholder ≠ "" := by
  constructor
  · simp [derive_insights, detect_patterns_eq, noErrorPlaceholder]
  · decide

/-- Claim C1 counterexample: the only extracted line is " Error ", which
matches the error phrase set, yet `root_cause` is the stripped "Error",
not the line exactly. -/
theorem claim1_counterexample :
    extract_text_from_event [("payload", JVal.obj [("text", JVal.str " Error ")])] = " Error "
      ∧ (derive_insights ⟨"dpl_cex1", "ERROR", 0, none⟩
          [[("payload", JVal.obj [("text", JVal.str " Error ")])]]).root_cause = "Error"
      ∧ ("Error" : String) ≠ " Error " := by
  refine ⟨rfl, ?_, by decide⟩
  decide

/-- Claim C3: the recommendations start from the baseline of three
generic strings; a dependency remediation and an environment remediation
are inserted right after the first baseline entry when the respective
match list is non-empty, the dependency one first. -/
theorem claim3_recommendations (d : Deployment) (events : List Event) :
    (derive_insights d events).recommendations =
      "Verify the build command in Vercel project settings." ::
        ((if (derive_insights d events).missing_dependencies.isEmpty then []
          else ["Install or declare the dependencies that are reported as missing."]) ++
         (if (derive_insights d events).missing_envs.isEmpty then []
          else ["Set the missing environment variables noted in the logs."]) ++
         ["Confirm all required environment variables are configured in the Vercel dashboard.",
          "Reproduce the build locally with `npm run build` to validate the fix before redeploying."]) := by
  have h := derive_recommendations_shape d events
  simpa [depRecommendation, envRecommendation] using h

/-- Claim C4: the pattern classifier returns, in input order, the trimmed
form of exactly the lines whose lower-cased form contains a phrase, one
output entry per input occurrence; and with the program's non-empty
phrases an empty line never matches. -/
theorem claim4_pattern_classifier :
    (∀ lines ps : List String,
      detect_patterns lines ps
        = (lines.filter fun l => ps.any fun p => strContainsSub (lowerStr l) p).map trimStr)
      ∧ ∀ ps : List String, (∀ p ∈ ps, p ≠ "") → detect_patterns [""] ps = [] := by
  constructor
  · exact detect_patterns_eq
  · intro ps h
    have hwit : ∀ p ∈ ps, strContainsSub (lowerStr "") p = false := by
      intro p hp
      have hp2 := h p hp
      show listHasSub (lowerStr "").data p.data = false
      have hdata : (lowerStr "").data = [] := rfl
      rw [hdata]
      cases hd : p.data with
      | nil => exact absurd (string_ext p "" hd) hp2
      | cons c cs => rfl
    have hhit : lineHit (lowerStr "") ps = false := by
      rw [lineHit_eq_any]
      simp only [List.any_eq_false]
      intro p hp
      simp [hwit p hp]
    simp [detect_patterns, hhit]

/-- Claim C4 witness: the classifier instantiated on a line with
surrounding whitespace, and on the empty line with a non-empty phrase. -/
theorem claim4_witness :
    detect_patterns [" A Error B "] ["error"]
        = (([" A Error B "].filter fun l =>
            ["error"].any fun p => strContainsSub (lowerStr l) p).map trimStr)
      ∧ detect_patterns [""] ["error"] = [] :=
  ⟨claim4_pattern_classifier.1 [" A Error B "] ["error"],
   claim4_pattern_classifier.2 ["error"] (by decide)⟩

/-- Claim C2: for every non-empty deployment list, the deployment the
script analyzes (head of the stable descending sort) carries the maximum
`created_at`, and every deployment encountered before it in the input
has a strictly smaller `created_at` (first-encountered wins ties). -/
theorem claim2_latest_selection (ds : List Deployment) (h : ds ≠ []) :
    ∃ d pre post, selectLatest ds = some d ∧ ds = pre ++ d :: post
      ∧ (∀ e ∈ ds, e.created_at ≤ d.created_at)
      ∧ ∀ e ∈ pre, e.created_at < d.created_at := by
  revert h
  induction ds with
  | nil => intro h; exact absurd rfl h
  | cons a l ih =>
    intro _
    cases l with
    | nil =>
      refine ⟨a, [], [], rfl, rfl, ?_, by simp⟩
      intro e he
      rw [List.mem_singleton] at he
      subst he
      exact le_refl _
    | cons b t =>
      obtain ⟨d, pre, post, hsel, heq, hmax, hpre⟩ := ih (by simp)
      obtain ⟨rest, hrest⟩ : ∃ rest, sortDeployments (b :: t) = d :: rest := by
        have hsel2 : (sortDeployments (b :: t)).head? = some d := hsel
        rcases List.head?_eq_some_iff.mp hsel2 with ⟨ys, hys⟩
        exact ⟨ys, hys⟩
      have hsort : sortDeployments (a :: b :: t)
          = List.orderedInsert (fun x y => y.created_at ≤ x.created_at) a
              (sortDeployments (b :: t)) := rfl
      rw [hrest] at hsort
      by_cases hc : d.created_at ≤ a.created_at
      · have hsel2 : selectLatest (a :: b :: t) = some a := by
          show (sortDeployments (a :: b :: t)).head? = some a
          rw [hsort]
          simp only [List.orderedInsert]
          rw [if_pos hc]
          rfl
        refine ⟨a, [], b :: t, hsel2, rfl, ?_, by simp⟩
        intro e he
        rcases List.mem_cons.mp he with h1 | h2
        · subst h1; exact le_refl _
        · exact le_trans (hmax e h2) hc
      · push_neg at hc
        have hsel2 : selectLatest (a :: b :: t) = some d := by
          show (sortDeployments (a :: b :: t)).head? = some d
          rw [hsort]
          simp only [List.orderedInsert]
          rw [if_neg (not_le.mpr hc)]
          rfl
        refine ⟨d, a :: pre, post, hsel2, ?_, ?_, ?_⟩
        · rw [List.cons_append, heq]
        · intro e he
          rcases List.mem_cons.mp he with h1 | h2
          · subst h1; exact le_of_lt hc
          · exact hmax e h2
        · intro e he
          rcases List.mem_cons.mp he with h1 | h2
          · subst h1; exact hc
          · exact hpre e h2

/-- Claim C2 witness: the specification's own example, deployments with
timestamps 100 and 200 in that order; the one with 200 is selected. -/
theorem claim2_witness :
    ∃ d pre post,
      selectLatest [Deployment.mk "A" "READY" 100 none, Deployment.mk "B" "ERROR" 200 none]
          = some d
        ∧ [Deployment.mk "A" "READY" 100 none, Deployment.mk "B" "ERROR" 200 none]
            = pre ++ d :: post
        ∧ (∀ e ∈ [Deployment.mk "A" "READY" 100 none, Deployment.mk "B" "ERROR" 200 none],
            e.created_at ≤ d.created_at)
        ∧ ∀ e ∈ pre, e.created_at < d.created_at :=
  claim2_latest_selection
    [Deployment.mk "A" "READY" 100 none, Deployment.mk "B" "ERROR" 200 none] (by simp)

/-- Claim C5 (amended): framework resolution prefers a non-empty
deployment framework field, otherwise scans the lowered event texts for
the fixed ordered markers and returns the first hit; with no hit it
returns no framework at all (None, not the string "unknown"). -/
theorem claim5_framework (d : Deployment) (events : List Event) :
    find_framework d events = resolveFrameworkSpec d events
      ∧ (truthyOpt d.framework = false →
          (∀ e ∈ events, markerOfLine (lowerStr (extract_text_from_event e)) = none) →
          find_framework d events = none) := by
  constructor
  · unfold find_framework resolveFrameworkSpec
    cases ht : truthyOpt d.framework <;> simp [ht, scan_eq]
  · intro hf hnone
    unfold find_framework
    rw [hf]
    simp only [Bool.false_eq_true, if_false]
    rw [scan_eq]
    refine List.findSome?_eq_none_iff.mpr ?_
    intro x hx
    obtain ⟨e, he, rfl⟩ := List.mem_map.mp hx
    exact hnone e he

/-- Claim C5 witness: a deployment with no framework field and one
marker-free event resolves to no framework, agreeing with the
specification-side resolver. -/
theorem claim5_witness :
    find_framework (Deployment.mk "dpl_nofw" "ERROR" 0 none) [[("message", JVal.str "hello")]]
        = resolveFrameworkSpec (Deployment.mk "dpl_nofw" "ERROR" 0 none)
            [[("message", JVal.str "hello")]]
      ∧ find_framework (Deployment.mk "dpl_nofw" "ERROR" 0 none)
          [[("message", JVal.str "hello")]] = none :=
  ⟨(claim5_framework (Deployment.mk "dpl_nofw" "ERROR" 0 none)
      [[("message", JVal.str "hello")]]).1,
   (claim5_framework (Deployment.mk "dpl_nofw" "ERROR" 0 none)
      [[("message", JVal.str "hello")]]).2 rfl (by
        intro e he
        rw [List.mem_singleton] at he
        subst he
        decide)⟩

/-- Claim C5 counterexample: with no framework field and no events, the
resolver returns none, not the string "unknown". -/
theorem claim5_counterexample :
    find_framework (Deployment.mk "dpl_cex5" "ERROR" 0 none) [] ≠ some "unknown"
      ∧ find_framework (Deployment.mk "dpl_cex5" "ERROR" 0 none) [] = none := by
  decide

/-- Claim C6: on a successful fetch of an empty deployment list the run
reports the dedicated no-deployments message (distinct from every fetch
failure message), analyzes no fabricated deployment, renders no report,
and exits with status 1. -/
theorem claim6_empty_deployments (tzOffset : Int)
    (eventsOf : String → Except APIFailure (List Event)) :
    runMain tzOffset (Except.ok []) eventsOf
        = { exitCode := 1, errorMessage := some noDeploymentsMessage,
            analyzed := none, report := none }
      ∧ ∀ e : APIFailure,
          (runMain tzOffset (Except.error e) eventsOf).errorMessage
            ≠ some noDeploymentsMessage := by
  constructor
  · rfl
  · intro e hcontra
    have h2 : some ("‚ùå " ++ renderAPIFailure e) = some noDeploymentsMessage := hcontra
    exact apiMessage_ne_noDeploymentsMessage e (Option.some.inj h2)

/-- Claim C7: event text extraction and insight derivation are total
functions of their inputs; an event without a usable payload text or
message string yields the empty string, and events with no usable text
produce the safe defaults (placeholder root cause, empty match lists, no
scanned framework, baseline recommendations) rather than any error. -/
theorem claim7_total_safe_defaults :
    (∀ event : Event, payloadTextOf event = none → messageOf event = none →
        extract_text_from_event event = "")
      ∧ ∀ (d : Deployment) (events : List Event),
          (∀ e ∈ events, extract_text_from_event e = "") →
          derive_insights d events =
            { root_cause := noErrorPlaceholder, missing_envs := [],
              missing_dependencies := [],
              framework := if truthyOpt d.framework then d.framework else none,
              build_status := d.state, recommendations := baselineRecommendations } := by
  constructor
  · intro event h1 h2
    unfold extract_text_from_event
    rw [h1, h2]
  · intro d events h
    have hlines := extractLines_eq_nil events h
    have hscan : scanFrameworkEvents events = none := by
      rw [scan_eq]
      refine List.findSome?_eq_none_iff.mpr ?_
      intro x hx
      obtain ⟨e, he, rfl⟩ := List.mem_map.mp hx
      rw [h e he]
      decide
    simp [derive_insights, hlines, find_framework, hscan, detect_patterns]

/-- Claim C7 witness: an event whose payload is not a dict and has no
message yields the empty string, and a run over only that event
produces the safe default insights. -/
theorem claim7_witness :
    extract_text_from_event [("payload", JVal.num 3)] = ""
      ∧ derive_insights (Deployment.mk "dpl_w7" "READY" 0 none) [[("payload", JVal.num 3)]] =
          { root_cause := noErrorPlaceholder, missing_envs := [], missing_dependencies := [],
            framework := if truthyOpt (Deployment.mk "dpl_w7" "READY" 0 none).framework
                         then (Deployment.mk "dpl_w7" "READY" 0 none).framework else none,
            build_status := (Deployment.mk "dpl_w7" "READY" 0 none).state,
            recommendations := baselineRecommendations } :=
  ⟨claim7_total_safe_defaults.1 [("payload", JVal.num 3)] rfl rfl,
   claim7_total_safe_defaults.2 (Deployment.mk "dpl_w7" "READY" 0 none)
     [[("payload", JVal.num 3)]] (by
       intro e he
       rw [List.mem_singleton] at he
       subst he
       rfl)⟩

/-- Claim C8: the rendered report is the blank-line join of, in fixed
order, the header, the status line, the root-cause line, the optional
Missing ENV Vars block (only when `missing_envs` is non-empty), the
optional Missing Dependencies block (only when `missing_dependencies` is
non-empty) and the always-present fix block; when nothing matched, both
optional blocks are omitted and the recommendations are exactly the
baseline three; an unresolved framework renders as the literal
"Unknown". -/
theorem claim8_report_layout :
    (∀ (tzOffset : Int) (insights : LogInsights) (d : Deployment),
      format_summary tzOffset insights d = pyJoin "\n\n"
        ([header_line tzOffset d, status_line insights, root_cause_line insights] ++
         (if insights.missing_envs.isEmpty then []
          else ["Missing ENV Vars:\n  - " ++ pyJoin "\n  - " insights.missing_envs]) ++
         (if insights.missing_dependencies.isEmpty then []
          else ["Missing Dependencies:\n  - " ++ pyJoin "\n  - " insights.missing_dependencies]) ++
         [fix_section insights]))
      ∧ showFramework none = "Unknown"
      ∧ ∀ (tzOffset : Int) (d : Deployment) (events : List Event),
          (derive_insights d events).missing_envs = [] →
          (derive_insights d events).missing_dependencies = [] →
          format_summary tzOffset (derive_insights d events) d = pyJoin "\n\n"
              [header_line tzOffset d, status_line (derive_insights d events),
               root_cause_line (derive_insights d events), fix_section (derive_insights d events)]
            ∧ (derive_insights d events).recommendations = baselineRecommendations := by
  refine ⟨?_, rfl, ?_⟩
  · intro tzOffset insights d
    simp [format_summary, extra_sections, List.append_assoc]
  · intro tzOffset d events hE hD
    constructor
    · simp [format_summary, extra_sections, hE, hD]
    · rw [derive_recommendations_shape]
      simp [hE, hD, baselineRecommendations]

/-- Claim C8 witness: a run with no events renders the four-section
report with the baseline recommendations. -/
theorem claim8_witness :
    format_summary 0 (derive_insights (Deployment.mk "dpl_w8" "READY" 0 none) [])
          (Deployment.mk "dpl_w8" "READY" 0 none)
        = pyJoin "\n\n"
            [header_line 0 (Deployment.mk "dpl_w8" "READY" 0 none),
             status_line (derive_insights (Deployment.mk "dpl_w8" "READY" 0 none) []),
             root_cause_line (derive_insights (Deployment.mk "dpl_w8" "READY" 0 none) []),
             fix_section (derive_insights (Deployment.mk "dpl_w8" "READY" 0 none) [])]
      ∧ (derive_insights (Deployment.mk "dpl_w8" "READY" 0 none) []).recommendations
          = baselineRecommendations :=
  claim8_report_layout.2.2 0 (Deployment.mk "dpl_w8" "READY" 0 none) [] rfl rfl

/-- The tail of the report after the header: every section except the
header, blank-line joined.  The ambient timezone does not occur in it. -/
def trailingSections (insights : LogInsights) : String :=
  pyJoin "\n\n" ([status_line insights, root_cause_line insights] ++
    extra_sections insights ++ [fix_section insights])

/-- Claim C9 (amended): rendering is a pure function of the insights,
the deployment and the ambient local timezone consulted by `localtime`;
the timezone enters only through the header's Created timestamp, so for
a fixed ambient timezone identical inputs give identical reports.  (The
original claim asserted determinism over the insights and deployment
alone, which the ambient timezone breaks.) -/
theorem claim9_rendering (tzOffset : Int) (insights : LogInsights) (d : Deployment) :
    format_summary tzOffset insights d
      = header_line tzOffset d ++ "\n\n" ++ trailingSections insights := rfl

/-- Claim C9 counterexample: the same insights and deployment rendered
under two ambient timezones (UTC and UTC+1) give different reports. -/
theorem claim9_counterexample :
    format_summary 0 (derive_insights (Deployment.mk "dpl_cex9" "READY" 0 none) [])
        (Deployment.mk "dpl_cex9" "READY" 0 none)
      ≠ format_summary 3600 (derive_insights (Deployment.mk "dpl_cex9" "READY" 0 none) [])
          (Deployment.mk "dpl_cex9" "READY" 0 none) := by
  decide

/-- Claim C10: `build_status` stores the deployment state verbatim, the
status line always contains its upper-cased form, and for a deployment
whose state is the lowercase "error" the verbatim state does not occur
in the status line while "ERROR" does. -/
theorem claim10_status_upper :
    (∀ (d : Deployment) (events : List Event),
        (derive_insights d events).build_status = d.state)
      ∧ (∀ insights : LogInsights,
          strContainsSub (status_line insights) (upperStr insights.build_status) = true)
      ∧ (Deployment.mk "dpl_cex10" "error" 0 none).state = "error"
      ∧ strContainsSub
          (status_line (derive_insights (Deployment.mk "dpl_cex10" "error" 0 none) []))
          "error" = false
      ∧ strContainsSub
          (status_line (derive_insights (Deployment.mk "dpl_cex10" "error" 0 none) []))
          "ERROR" = true := by
  refine ⟨?_, ?_, rfl, by decide, by decide⟩
  · intro d events
    rfl
  · intro insights
    unfold status_line
    rw [String.append_assoc]
    exact strContains_middle _ _ _
